import Mathlib

/-!
Verification of the OMNIAI backend payment subsystem specification
against the repository source.

The repository contains a small Flask application (main.py), a
subscription seeding script (init_subscriptions.py), several setup and
test scripts, and a natural-language behavioural contract for a payment
engine whose implementation (enhanced_stripe_service, payment routes)
is not part of the inspected files.  Definitions below are shallow
embeddings: pure Python functions become Lean functions, dictionary
request bodies become structures with Option fields (a missing key maps
to none, matching dict.get), HTTP statuses are natural numbers, and the
webhook processing pipeline is explicit state passing over a ServerState
record.  Components whose source is absent are modelled from the
specification text and are marked as such in their doc comments.
-/

namespace OmniAI

/-! ## Embedding of src/main.py -/

/-- Request body of POST /api/ai/chat: a JSON object whose optional
field message is read with data.get(\x7bmessage\x7d, default empty). -/
structure ChatRequest where
  message : Option String
deriving DecidableEq

/-- Embedding of ai_chat in src/main.py lines 15 to 25: reads the
message field with a default, then returns a fixed response text and a
fixed timestamp; the extracted message is never used. -/
def ai_chat (data : ChatRequest) : String × String :=
  let _message := data.message.getD ""
  ("I am your Islamic Finance AI Assistant. I can help you with Shariah-compliant investments, Zakat calculations, and Islamic banking principles.",
   "2024-01-01T12:00:00Z")

/-- Request body of POST /api/admin/login: a JSON object with optional
username and password fields, read with data.get. -/
structure AdminLoginRequest where
  username : Option String
  password : Option String
deriving DecidableEq

/-- Embedding of admin_login in src/main.py lines 27 to 36: compares
the username and password fields against the hard-coded pair and
returns status, success flag and message. -/
def admin_login (data : AdminLoginRequest) : Nat × Bool × String :=
  if data.username = some "admin" ∧ data.password = some "omniai2025" then
    (200, true, "Admin login successful")
  else
    (401, false, "Invalid credentials")

/-! ## Embedding of src/init_subscriptions.py -/

/-- Value of one entry in a features dictionary: the source stores
integers (with minus one meaning unlimited), booleans and strings. -/
inductive FeatureValue
  | num (n : Int)
  | flag (b : Bool)
  | str (s : String)
deriving DecidableEq

/-- A Subscription row as constructed in init_subscriptions.py.  The
features JSON dump is embedded structurally as a key-value list. -/
structure Subscription where
  name : String
  description : String
  user_type_applicable : String
  price_monthly : ℚ
  price_annual : ℚ
  currency : String
  features : List (String × FeatureValue)
  is_active : Bool
deriving DecidableEq

/-- Embedding of init_subscriptions.py lines 19 to 34. -/
def individual_basic : Subscription :=
  { name := "Individual Basic"
    description := "Core AI advisory features for personal use"
    user_type_applicable := "individual"
    price_monthly := 9.99
    price_annual := 99.99
    currency := "USD"
    features :=
      [("ai_interactions_per_month", FeatureValue.num 1000),
       ("workflows", FeatureValue.num 5),
       ("support_level", FeatureValue.str "standard"),
       ("mobile_access", FeatureValue.flag true),
       ("voice_interaction", FeatureValue.flag false)]
    is_active := true }

/-- Embedding of init_subscriptions.py lines 36 to 53. -/
def individual_premium : Subscription :=
  { name := "Individual Premium"
    description := "Enhanced AI with learning and advanced features"
    user_type_applicable := "individual"
    price_monthly := 19.99
    price_annual := 199.99
    currency := "USD"
    features :=
      [("ai_interactions_per_month", FeatureValue.num 5000),
       ("workflows", FeatureValue.num 25),
       ("support_level", FeatureValue.str "priority"),
       ("mobile_access", FeatureValue.flag true),
       ("voice_interaction", FeatureValue.flag true),
       ("advanced_analytics", FeatureValue.flag true),
       ("ai_learning", FeatureValue.flag true)]
    is_active := true }

/-- Embedding of init_subscriptions.py lines 55 to 74. -/
def individual_pro : Subscription :=
  { name := "Individual Pro"
    description := "All premium features with unlimited access"
    user_type_applicable := "individual"
    price_monthly := 39.99
    price_annual := 399.99
    currency := "USD"
    features :=
      [("ai_interactions_per_month", FeatureValue.num (-1)),
       ("workflows", FeatureValue.num (-1)),
       ("support_level", FeatureValue.str "priority"),
       ("mobile_access", FeatureValue.flag true),
       ("voice_interaction", FeatureValue.flag true),
       ("advanced_analytics", FeatureValue.flag true),
       ("ai_learning", FeatureValue.flag true),
       ("api_access", FeatureValue.str "limited"),
       ("custom_integrations", FeatureValue.flag true)]
    is_active := true }

/-- Embedding of init_subscriptions.py lines 77 to 95. -/
def company_business : Subscription :=
  { name := "Business Plan"
    description := "Multi-user support with enterprise AI advisory"
    user_type_applicable := "company"
    price_monthly := 49.99
    price_annual := 499.99
    currency := "USD"
    features :=
      [("max_users", FeatureValue.num 10),
       ("ai_interactions_per_month", FeatureValue.num 10000),
       ("workflows", FeatureValue.num (-1)),
       ("support_level", FeatureValue.str "priority"),
       ("mobile_access", FeatureValue.flag true),
       ("voice_interaction", FeatureValue.flag true),
       ("business_analytics", FeatureValue.flag true),
       ("enterprise_ai", FeatureValue.flag true)]
    is_active := true }

/-- Embedding of init_subscriptions.py lines 97 to 118. -/
def company_enterprise : Subscription :=
  { name := "Enterprise Plan"
    description := "Full feature access with custom branding"
    user_type_applicable := "company"
    price_monthly := 99.99
    price_annual := 999.99
    currency := "USD"
    features :=
      [("max_users", FeatureValue.num 50),
       ("ai_interactions_per_month", FeatureValue.num 50000),
       ("workflows", FeatureValue.num (-1)),
       ("support_level", FeatureValue.str "dedicated"),
       ("mobile_access", FeatureValue.flag true),
       ("voice_interaction", FeatureValue.flag true),
       ("business_analytics", FeatureValue.flag true),
       ("enterprise_ai", FeatureValue.flag true),
       ("custom_branding", FeatureValue.flag true),
       ("api_access", FeatureValue.str "full"),
       ("compliance_tools", FeatureValue.flag true)]
    is_active := true }

/-- Embedding of init_subscriptions.py lines 120 to 144. -/
def company_corporate : Subscription :=
  { name := "Corporate Plan"
    description := "Unlimited users with custom deployment options"
    user_type_applicable := "company"
    price_monthly := 199.99
    price_annual := 1999.99
    currency := "USD"
    features :=
      [("max_users", FeatureValue.num (-1)),
       ("ai_interactions_per_month", FeatureValue.num (-1)),
       ("workflows", FeatureValue.num (-1)),
       ("support_level", FeatureValue.str "24/7_dedicated"),
       ("mobile_access", FeatureValue.flag true),
       ("voice_interaction", FeatureValue.flag true),
       ("business_analytics", FeatureValue.flag true),
       ("enterprise_ai", FeatureValue.flag true),
       ("custom_branding", FeatureValue.flag true),
       ("api_access", FeatureValue.str "full"),
       ("compliance_tools", FeatureValue.flag true),
       ("white_label", FeatureValue.flag true),
       ("custom_deployment", FeatureValue.flag true),
       ("custom_integrations", FeatureValue.flag true)]
    is_active := true }

/-- The list added by init_subscriptions.py lines 147 to 150, in source
order. -/
def subscriptions : List Subscription :=
  [individual_basic, individual_premium, individual_pro,
   company_business, company_enterprise, company_corporate]

/-- Embedding of the module-level seeding block of
init_subscriptions.py: if any Subscription row already exists the
script exits without adding rows, otherwise it adds the six plans and
commits. -/
def init_subscriptions (db : List Subscription) : List Subscription :=
  if db.isEmpty then subscriptions else db

/-- Number of rows of a given user type in a plan list. -/
def countByUserType (plans : List Subscription) (t : String) : Nat :=
  (plans.filter (fun s => s.user_type_applicable = t)).length

/-- Whether every row of a plan list has currency USD and is active. -/
def allUsdActive (plans : List Subscription) : Bool :=
  plans.all (fun s => s.currency = "USD" && s.is_active)

/-! ## Payment validator, checkout service and webhook pipeline

Modelled from the spec: the implementation of enhanced_stripe_service
and the payment routes is not among the inspected source files; only
the test scripts that drive them over HTTP are.  The definitions in
this section follow the behavioural contract of spec sections 4.1, 4.2,
4.3, 6 and 7, with the concrete bounds the spec instructs implementers
to pick (1.00 and 10000.00). -/

/-- Error taxonomy of spec section 7 restricted to the payment
validation and webhook layer. -/
inductive PaymentError
  | invalidCurrency (code : String)
  | invalidAmount
  | amountOutOfRange
  | invalidPlan
  | unauthorized
deriving DecidableEq

/-- Modelled from the spec: the minimum amount bound of PaymentConfig,
using the concrete example value the spec names. -/
def min_amount : ℚ := 1.00

/-- Modelled from the spec: the maximum amount bound of PaymentConfig,
using the concrete example value the spec names. -/
def max_amount : ℚ := 10000.00

/-- Modelled from the spec: validate_currency succeeds exactly on the
string USD, case-sensitively, with no normalization and no aliases;
any other code fails with InvalidCurrency naming the rejected code. -/
def validate_currency (code : String) : Except PaymentError Unit :=
  if code = "USD" then Except.ok () else Except.error (PaymentError.invalidCurrency code)

/-- Modelled from the spec: validate_amount first validates the
currency, rejects non-positive or sub-cent amounts as InvalidAmount,
and rejects amounts outside the configured band as AmountOutOfRange. -/
def validate_amount (amount : ℚ) (currency : String) : Except PaymentError Unit :=
  match validate_currency currency with
  | Except.error e => Except.error e
  | Except.ok _ =>
    if amount ≤ 0 ∨ (amount * 100).den ≠ 1 then Except.error PaymentError.invalidAmount
    else if amount < min_amount ∨ max_amount < amount then Except.error PaymentError.amountOutOfRange
    else Except.ok ()

/-- HTTP status of a payment error per spec sections 6 and 7: missing
authentication surfaces as 401, every other client-input error as
400. -/
def errorStatus : PaymentError → Nat
  | PaymentError.unauthorized => 401
  | _ => 400

/-- Modelled from the spec: the validate-amount endpoint returns 200
when validation succeeds and a 4xx client error status otherwise. -/
def validate_amount_endpoint (amount : ℚ) (currency : String) : Nat :=
  match validate_amount amount currency with
  | Except.ok _ => 200
  | Except.error e => errorStatus e

/-- Observable side effects of checkout session creation, in order of
occurrence: the external provider call and the local persistence of the
pending PaymentTransaction. -/
inductive Effect
  | providerCall
  | persistTransaction
deriving DecidableEq

/-- Modelled from the spec: create_checkout_session requires an
authenticated user, a plan type in individual or company and a billing
cycle in monthly or annual, then validates currency and amount before
contacting the provider; only on full success does it call the provider
and persist a pending transaction, returning a provider checkout URL.
The price of a plan and cycle is supplied by the pricing configuration
argument.  The second component lists the side effects performed. -/
def create_checkout_session (price : String → String → ℚ)
    (authenticated : Bool) (plan_type billing_cycle currency : String) :
    Except PaymentError String × List Effect :=
  if ¬authenticated then (Except.error PaymentError.unauthorized, [])
  else if ¬(plan_type = "individual" ∨ plan_type = "company")
       ∨ ¬(billing_cycle = "monthly" ∨ billing_cycle = "annual") then
    (Except.error PaymentError.invalidPlan, [])
  else
    match validate_amount (price plan_type billing_cycle) currency with
    | Except.error e => (Except.error e, [])
    | Except.ok _ =>
      (Except.ok "https://checkout.stripe.com/session",
       [Effect.providerCall, Effect.persistTransaction])

/-- HTTP status of the create-checkout-session endpoint. -/
def create_checkout_status (r : Except PaymentError String × List Effect) : Nat :=
  match r.1 with
  | Except.ok _ => 200
  | Except.error e => errorStatus e

/-- Status of a PaymentTransaction per spec section 3. -/
inductive TxnStatus
  | pending
  | succeeded
  | failed
  | refunded
deriving DecidableEq

/-- A PaymentTransaction record per spec section 3. -/
structure PaymentTransaction where
  userId : Nat
  amount : ℚ
  currency : String
  status : TxnStatus
  providerRef : String
deriving DecidableEq

/-- Webhook event types the processor dispatches on per spec section
4.3: checkout completion, payment failure, and anything else. -/
inductive EventType
  | checkoutCompleted
  | paymentFailure
  | unknown
deriving DecidableEq

/-- A decoded webhook event: the unique provider event id, its type and
the provider reference of the transaction it concerns. -/
structure WebhookEvent where
  eventId : String
  etype : EventType
  providerRef : String
deriving DecidableEq

/-- Persistent state touched by webhook processing: the set of already
processed provider event ids (the WebhookEvent audit table), the
PaymentTransaction rows and the activated subscription references. -/
structure ServerState where
  processedEvents : List String
  transactions : List PaymentTransaction
  activeSubscriptions : List String
deriving DecidableEq

/-- Transition every pending transaction with the given provider
reference to the new status, leaving other rows unchanged. -/
def transitionTxn (txns : List PaymentTransaction) (ref : String)
    (new : TxnStatus) : List PaymentTransaction :=
  txns.map fun t =>
    if t.providerRef = ref ∧ t.status = TxnStatus.pending then
      { t with status := new }
    else t

/-- Modelled from the spec: process_event first checks the provider
event id against the audit table and short-circuits with success on a
repeat delivery; otherwise it applies the transition for the event type
(checkout completion moves the matching pending transaction to
succeeded and activates the subscription, payment failure moves it to
failed, unknown types are acknowledged without action) and records the
event id.  The boolean is the success acknowledgement to the
provider. -/
def process_event (s : ServerState) (e : WebhookEvent) : ServerState × Bool :=
  if e.eventId ∈ s.processedEvents then (s, true)
  else
    let s1 :=
      match e.etype with
      | EventType.checkoutCompleted =>
        { s with
          transactions := transitionTxn s.transactions e.providerRef TxnStatus.succeeded,
          activeSubscriptions := e.providerRef :: s.activeSubscriptions }
      | EventType.paymentFailure =>
        { s with transactions := transitionTxn s.transactions e.providerRef TxnStatus.failed }
      | EventType.unknown => s
    ({ s1 with processedEvents := e.eventId :: s1.processedEvents }, true)

/-- Modelled from the spec: the webhook POST handler.  A missing
signature header is rejected with 400 before anything else; a present
header is verified by recomputing the expected signature over the raw
body with the shared secret (the signing function is supplied as an
argument since the provider scheme is external); only a verified
request is parsed, and a parse failure is 400; a parsed event is
processed idempotently and acknowledged with 200.  The state component
of the result is the possibly updated store. -/
def webhook_post (hmacSig : String → String → String) (secret : String)
    (parse : String → Option WebhookEvent)
    (sigHeader : Option String) (rawBody : String) (s : ServerState) :
    Nat × ServerState :=
  match sigHeader with
  | none => (400, s)
  | some sig =>
    if sig = hmacSig secret rawBody then
      match parse rawBody with
      | none => (400, s)
      | some e => (200, (process_event s e).1)
    else (400, s)

/-! ## Exit codes of the standalone scripts -/

/-- Embedding of generate_test_summary in test_enhanced_payments.py
lines 477 to 512: given the success flags of the run, it returns
whether the passed count equals the total count. -/
def generate_test_summary (results : List Bool) : Bool :=
  (results.filter (fun r => r)).length == results.length

/-- Embedding of run_all_tests in test_enhanced_payments.py lines 445
to 475: it calls generate_test_summary but does not return its value,
so as a Python function without a return statement it yields None. -/
def run_all_tests (results : List Bool) : Option Bool :=
  let _summary := generate_test_summary results
  none

/-- Python truthiness of an optional boolean: None is falsy. -/
def pyTruthy : Option Bool → Bool
  | none => false
  | some b => b

/-- Embedding of main in test_enhanced_payments.py lines 514 to 551:
success is the value of run_all_tests and the process exits 0 if it is
truthy, else 1. -/
def test_enhanced_payments_exit (results : List Bool) : Nat :=
  if pyTruthy (run_all_tests results) then 0 else 1

/-- Embedding of the pass-rate computation of generate_report in
security_validation_test.py lines 311 to 324. -/
def security_pass_rate (results : List Bool) : ℚ :=
  if results.length = 0 then 0
  else ((results.filter (fun r => r)).length : ℚ) / (results.length : ℚ) * 100

/-- Embedding of main in security_validation_test.py lines 404 to 413:
the process exits 0 when the pass rate is at least 75 and 1
otherwise. -/
def security_validation_exit (results : List Bool) : Nat :=
  if 75 ≤ security_pass_rate results then 0 else 1

/-- Embedding of the exit logic of setup_usd_payments.py lines 305 to
356: main returns the conjunction of its step results and the process
exits 0 on success, 1 on failure. -/
def setup_usd_payments_exit (stepResults : List Bool) : Nat :=
  if stepResults.all (fun r => r) then 0 else 1

/-! ## Helper lemmas -/

/-- The currency USD is accepted by validate_currency. -/
theorem validate_currency_usd : validate_currency "USD" = Except.ok () := rfl

/-- Any currency code other than USD is rejected with InvalidCurrency. -/
theorem validate_currency_ne (code : String) (h : code ≠ "USD") :
    validate_currency code = Except.error (PaymentError.invalidCurrency code) := by
  simp [validate_currency, h]

/-- Amount validation with a non-USD currency fails with InvalidCurrency
before looking at the amount. -/
theorem validate_amount_non_usd (a : ℚ) (c : String) (h : c ≠ "USD") :
    validate_amount a c = Except.error (PaymentError.invalidCurrency c) := by
  unfold validate_amount
  rw [validate_currency_ne c h]

/-- Amount validation never succeeds when the currency is not USD or the
amount is outside the configured band. -/
theorem validate_amount_not_ok (a : ℚ) (c : String)
    (h : c ≠ "USD" ∨ a < min_amount ∨ max_amount < a) :
    ∀ u : Unit, validate_amount a c ≠ Except.ok u := by
  intro u
  by_cases hc : c = "USD"
  · subst hc
    have hr : a < min_amount ∨ max_amount < a := by
      rcases h with h | hr
      · exact absurd rfl h
      · exact hr
    by_cases h1 : a ≤ 0 ∨ (a * 100).den ≠ 1
    · simp [validate_amount, validate_currency, h1]
    · simp [validate_amount, validate_currency, h1, hr]
  · rw [validate_amount_non_usd a c hc]
    simp

/-- Evaluation helper: amount validation over USD succeeds for a
cent-aligned amount inside the configured band. -/
theorem validate_amount_endpoint_ok (a : ℚ) (n : ℤ)
    (h100 : a * 100 = (n : ℚ)) (h0 : 0 < a)
    (hmin : min_amount ≤ a) (hmax : a ≤ max_amount) :
    validate_amount_endpoint a "USD" = 200 := by
  have hden : (a * 100).den = 1 := by rw [h100]; exact Rat.den_intCast n
  have h1 : ¬(a ≤ 0 ∨ (a * 100).den ≠ 1) := by
    push_neg
    exact ⟨h0, hden⟩
  have h2 : ¬(a < min_amount ∨ max_amount < a) := by
    push_neg
    exact ⟨hmin, hmax⟩
  simp [validate_amount_endpoint, validate_amount, validate_currency, h1, h2]

/-- Evaluation helper: amount validation over USD fails with a 400 for a
non-positive, sub-cent or out-of-band amount. -/
theorem validate_amount_endpoint_reject (a : ℚ)
    (h : a ≤ 0 ∨ (a * 100).den ≠ 1 ∨ a < min_amount ∨ max_amount < a) :
    validate_amount_endpoint a "USD" = 400 := by
  unfold validate_amount_endpoint validate_amount validate_currency
  rw [if_pos rfl]
  by_cases h1 : a ≤ 0 ∨ (a * 100).den ≠ 1
  · simp [h1, errorStatus]
  · have h2 : a < min_amount ∨ max_amount < a := by
      rcases h with h | h | h | h
      · exact absurd (Or.inl h) h1
      · exact absurd (Or.inr h) h1
      · exact Or.inl h
      · exact Or.inr h
    simp [h1, h2, errorStatus]

/-- After processing an event its provider event id is recorded. -/
theorem process_event_mem (s : ServerState) (e : WebhookEvent) :
    e.eventId ∈ (process_event s e).1.processedEvents := by
  by_cases h : e.eventId ∈ s.processedEvents
  · simp [process_event, h]
  · simp [process_event, h]

/-- Processing an already recorded event changes nothing and still
acknowledges success. -/
theorem process_event_replay (s : ServerState) (e : WebhookEvent)
    (h : e.eventId ∈ s.processedEvents) :
    process_event s e = (s, true) := by
  simp [process_event, h]

/-! ## Claim theorems -/

/-- Claim C1: every currency code other than the exact string USD is
rejected by validate_currency with an InvalidCurrency error, the
validate-amount and create-checkout-session operations both answer such
a request with a 4xx client status, and USD itself is accepted. -/
theorem usd_only_enforcement (code : String) (amount : ℚ)
    (price : String → String → ℚ) (authenticated : Bool)
    (plan_type billing_cycle : String) (h : code ≠ "USD") :
    validate_currency code = Except.error (PaymentError.invalidCurrency code) ∧
    validate_currency "USD" = Except.ok () ∧
    400 ≤ validate_amount_endpoint amount code ∧
    validate_amount_endpoint amount code < 500 ∧
    400 ≤ create_checkout_status
      (create_checkout_session price authenticated plan_type billing_cycle code) ∧
    create_checkout_status
      (create_checkout_session price authenticated plan_type billing_cycle code) < 500 := by
  have hva : validate_amount_endpoint amount code = 400 := by
    unfold validate_amount_endpoint
    rw [validate_amount_non_usd amount code h]
    rfl
  have hck : 400 ≤ create_checkout_status
      (create_checkout_session price authenticated plan_type billing_cycle code) ∧
      create_checkout_status
        (create_checkout_session price authenticated plan_type billing_cycle code) < 500 := by
    have hv := validate_amount_non_usd (price plan_type billing_cycle) code h
    unfold create_checkout_session create_checkout_status
    split_ifs <;> simp [hv, errorStatus]
  exact ⟨validate_currency_ne code h, validate_currency_usd,
    le_of_eq hva.symm, by rw [hva]; norm_num, hck.1, hck.2⟩

/-- Concrete pricing configuration used to instantiate the payment
model in witnesses. -/
def demoPrice : String → String → ℚ := fun _ _ => 9.99

/-- Witness for C1 at the concrete currency EUR. -/
theorem usd_only_enforcement_witness :
    validate_currency "EUR" = Except.error (PaymentError.invalidCurrency "EUR") ∧
    validate_currency "USD" = Except.ok () ∧
    400 ≤ validate_amount_endpoint 5 "EUR" ∧
    validate_amount_endpoint 5 "EUR" < 500 ∧
    400 ≤ create_checkout_status
      (create_checkout_session demoPrice true "individual" "monthly" "EUR") ∧
    create_checkout_status
      (create_checkout_session demoPrice true "individual" "monthly" "EUR") < 500 :=
  usd_only_enforcement "EUR" 5 demoPrice true "individual" "monthly" (by decide)

/-- Claim C2: with currency USD, amount validation answers 400 for each
amount in 0, -1, 0.50, 10001 and 99999, and answers 200 for each amount
in 1.00, 9.99, 99.99, 299.99 and 999.99. -/
theorem usd_amount_policy :
    validate_amount_endpoint 0 "USD" = 400 ∧
    validate_amount_endpoint (-1) "USD" = 400 ∧
    validate_amount_endpoint 0.50 "USD" = 400 ∧
    validate_amount_endpoint 10001 "USD" = 400 ∧
    validate_amount_endpoint 99999 "USD" = 400 ∧
    validate_amount_endpoint 1.00 "USD" = 200 ∧
    validate_amount_endpoint 9.99 "USD" = 200 ∧
    validate_amount_endpoint 99.99 "USD" = 200 ∧
    validate_amount_endpoint 299.99 "USD" = 200 ∧
    validate_amount_endpoint 999.99 "USD" = 200 := by
  refine ⟨?_, ?_, ?_, ?_, ?_, ?_, ?_, ?_, ?_, ?_⟩
  · exact validate_amount_endpoint_reject 0 (Or.inl (by norm_num))
  · exact validate_amount_endpoint_reject (-1) (Or.inl (by norm_num))
  · exact validate_amount_endpoint_reject 0.50
      (Or.inr (Or.inr (Or.inl (by norm_num [min_amount]))))
  · exact validate_amount_endpoint_reject 10001
      (Or.inr (Or.inr (Or.inr (by norm_num [max_amount]))))
  · exact validate_amount_endpoint_reject 99999
      (Or.inr (Or.inr (Or.inr (by norm_num [max_amount]))))
  · exact validate_amount_endpoint_ok 1.00 100 (by norm_num) (by norm_num)
      (by norm_num [min_amount]) (by norm_num [max_amount])
  · exact validate_amount_endpoint_ok 9.99 999 (by norm_num) (by norm_num)
      (by norm_num [min_amount]) (by norm_num [max_amount])
  · exact validate_amount_endpoint_ok 99.99 9999 (by norm_num) (by norm_num)
      (by norm_num [min_amount]) (by norm_num [max_amount])
  · exact validate_amount_endpoint_ok 299.99 29999 (by norm_num) (by norm_num)
      (by norm_num [min_amount]) (by norm_num [max_amount])
  · exact validate_amount_endpoint_ok 999.99 99999 (by norm_num) (by norm_num)
      (by norm_num [min_amount]) (by norm_num [max_amount])

/-- Claim C3: delivering a correctly signed, well-formed webhook event a
second time performs no further state transition and the provider is
still answered with 200; the first delivery alone applies the
effects. -/
theorem webhook_idempotent (hmacSig : String → String → String)
    (secret rawBody : String) (parse : String → Option WebhookEvent)
    (e : WebhookEvent) (s : ServerState)
    (hparse : parse rawBody = some e) :
    (webhook_post hmacSig secret parse (some (hmacSig secret rawBody)) rawBody s).1 = 200 ∧
    webhook_post hmacSig secret parse (some (hmacSig secret rawBody)) rawBody
        (webhook_post hmacSig secret parse (some (hmacSig secret rawBody)) rawBody s).2
      = (200, (webhook_post hmacSig secret parse
          (some (hmacSig secret rawBody)) rawBody s).2) := by
  have hfirst : webhook_post hmacSig secret parse
      (some (hmacSig secret rawBody)) rawBody s = (200, (process_event s e).1) := by
    simp [webhook_post, hparse]
  have h2 : process_event (process_event s e).1 e = ((process_event s e).1, true) :=
    process_event_replay _ _ (process_event_mem s e)
  constructor
  · rw [hfirst]
  · rw [hfirst]
    simp [webhook_post, hparse, h2]

/-- Concrete signing function used to instantiate the webhook model in
witnesses. -/
def demoHmac : String → String → String := fun secret body => String.append secret body

/-- Concrete decoded webhook event used in witnesses. -/
def demoEvent : WebhookEvent :=
  { eventId := "evt_1", etype := EventType.checkoutCompleted, providerRef := "cs_1" }

/-- Concrete payload decoder used in witnesses. -/
def demoParse : String → Option WebhookEvent := fun _ => some demoEvent

/-- Concrete empty store used in witnesses. -/
def demoState : ServerState :=
  { processedEvents := [], transactions := [], activeSubscriptions := [] }

/-- Witness for C3 at a concrete signed delivery replayed once. -/
theorem webhook_idempotent_witness :
    (webhook_post demoHmac "whsec" demoParse
      (some (demoHmac "whsec" "payload")) "payload" demoState).1 = 200 ∧
    webhook_post demoHmac "whsec" demoParse
        (some (demoHmac "whsec" "payload")) "payload"
        (webhook_post demoHmac "whsec" demoParse
          (some (demoHmac "whsec" "payload")) "payload" demoState).2
      = (200, (webhook_post demoHmac "whsec" demoParse
          (some (demoHmac "whsec" "payload")) "payload" demoState).2) :=
  webhook_idempotent demoHmac "whsec" "payload" demoParse demoEvent demoState rfl

/-- Claim C4: a webhook POST without a signature header is answered 400
for every request body, with the store untouched; the status is neither
a success nor a server error. -/
theorem webhook_missing_signature (hmacSig : String → String → String)
    (secret : String) (parse : String → Option WebhookEvent)
    (rawBody : String) (s : ServerState) :
    webhook_post hmacSig secret parse none rawBody s = (400, s) ∧
    (webhook_post hmacSig secret parse none rawBody s).1 ≠ 200 ∧
    (webhook_post hmacSig secret parse none rawBody s).1 ≠ 500 :=
  ⟨rfl, by simp [webhook_post], by simp [webhook_post]⟩

/-- Claim C5: a webhook POST whose signature header does not verify
against the payload is answered with a client error, never 200, and
mutates no transaction and no subscription record. -/
theorem webhook_invalid_signature (hmacSig : String → String → String)
    (secret sig rawBody : String) (parse : String → Option WebhookEvent)
    (s : ServerState) (h : sig ≠ hmacSig secret rawBody) :
    webhook_post hmacSig secret parse (some sig) rawBody s = (400, s) ∧
    ((webhook_post hmacSig secret parse (some sig) rawBody s).1 = 400 ∨
     (webhook_post hmacSig secret parse (some sig) rawBody s).1 = 500) ∧
    (webhook_post hmacSig secret parse (some sig) rawBody s).1 ≠ 200 ∧
    (webhook_post hmacSig secret parse (some sig) rawBody s).2.transactions
      = s.transactions ∧
    (webhook_post hmacSig secret parse (some sig) rawBody s).2.activeSubscriptions
      = s.activeSubscriptions := by
  have hr : webhook_post hmacSig secret parse (some sig) rawBody s = (400, s) := by
    simp [webhook_post, h]
  refine ⟨hr, ?_, ?_, ?_, ?_⟩ <;> rw [hr] <;> simp

/-- Witness for C5 at a concrete mismatched signature. -/
theorem webhook_invalid_signature_witness :
    webhook_post demoHmac "whsec" demoParse (some "bad") "payload" demoState
      = (400, demoState) ∧
    ((webhook_post demoHmac "whsec" demoParse (some "bad") "payload" demoState).1 = 400 ∨
     (webhook_post demoHmac "whsec" demoParse (some "bad") "payload" demoState).1 = 500) ∧
    (webhook_post demoHmac "whsec" demoParse (some "bad") "payload" demoState).1 ≠ 200 ∧
    (webhook_post demoHmac "whsec" demoParse (some "bad") "payload" demoState).2.transactions
      = demoState.transactions ∧
    (webhook_post demoHmac "whsec" demoParse
        (some "bad") "payload" demoState).2.activeSubscriptions
      = demoState.activeSubscriptions :=
  webhook_invalid_signature demoHmac "whsec" "bad" "payload" demoParse demoState (by decide)

/-- Claim C6: a checkout session request whose currency is not USD or
whose amount lies outside the configured band fails and performs no
side effect at all: no provider call and no persistence. -/
theorem checkout_validates_before_provider (price : String → String → ℚ)
    (authenticated : Bool) (plan_type billing_cycle currency : String)
    (h : currency ≠ "USD" ∨ price plan_type billing_cycle < min_amount
         ∨ max_amount < price plan_type billing_cycle) :
    (create_checkout_session price authenticated plan_type billing_cycle currency).2 = [] ∧
    ∃ e, (create_checkout_session price authenticated plan_type billing_cycle currency).1
      = Except.error e := by
  unfold create_checkout_session
  split_ifs
  all_goals try exact ⟨rfl, _, rfl⟩
  cases heq : validate_amount (price plan_type billing_cycle) currency with
  | error e => simp [heq]
  | ok u => exact absurd heq (validate_amount_not_ok _ _ h u)

/-- Witness for C6 at a concrete non-USD checkout request. -/
theorem checkout_validates_before_provider_witness :
    (create_checkout_session demoPrice true "individual" "monthly" "EUR").2 = [] ∧
    ∃ e, (create_checkout_session demoPrice true "individual" "monthly" "EUR").1
      = Except.error e :=
  checkout_validates_before_provider demoPrice true "individual" "monthly" "EUR"
    (Or.inl (by decide))

/-- Claim C7: on an empty store the seeding script creates exactly six
Subscription rows, three applicable to individual users and three to
companies, every one with currency USD and active. -/
theorem seed_six_subscription_plans :
    (init_subscriptions []).length = 6 ∧
    countByUserType (init_subscriptions []) "individual" = 3 ∧
    countByUserType (init_subscriptions []) "company" = 3 ∧
    allUsdActive (init_subscriptions []) = true := by
  refine ⟨by decide, by decide, by decide, by decide⟩

/-- Claim C8 evaluation: a run of test_enhanced_payments.py in which
every check passes still exits with code 1, because run_all_tests
discards the value of generate_test_summary and a Python function
without a return yields None; security_validation_test.py exits 0 on a
75 percent pass rate although a check failed; setup_usd_payments.py
alone matches the claimed contract. -/
theorem script_exit_codes_bug :
    generate_test_summary [true, true, true, true] = true ∧
    test_enhanced_payments_exit [true, true, true, true] = 1 ∧
    security_validation_exit [true, true, true, false] = 0 ∧
    setup_usd_payments_exit [true, true, true, true, true] = 0 ∧
    setup_usd_payments_exit [true, false, true, true, true] = 1 := by
  refine ⟨by decide, by decide, ?_, by decide, by decide⟩
  show security_validation_exit [true, true, true, false] = 0
  unfold security_validation_exit
  rw [if_pos]
  norm_num [security_pass_rate, List.filter]

/-- Claim C9: the admin login endpoint answers 200 with success exactly
for the hard-coded pair admin and omniai2025, and answers 401 with
success false for every other pair. -/
theorem admin_login_hardcoded (d : AdminLoginRequest) :
    (admin_login d = (200, true, "Admin login successful") ↔
      d.username = some "admin" ∧ d.password = some "omniai2025") ∧
    ((d.username ≠ some "admin" ∨ d.password ≠ some "omniai2025") →
      admin_login d = (401, false, "Invalid credentials")) := by
  unfold admin_login
  by_cases h : d.username = some "admin" ∧ d.password = some "omniai2025"
  · rw [if_pos h]
    refine ⟨iff_of_true rfl h, ?_⟩
    intro hc
    rcases hc with hc | hc
    · exact absurd h.1 hc
    · exact absurd h.2 hc
  · rw [if_neg h]
    exact ⟨iff_of_false (by decide) h, fun _ => rfl⟩

/-- Witness for C9 at the correct username with a wrong password. -/
theorem admin_login_hardcoded_witness :
    admin_login { username := some "admin", password := some "wrong" }
      = (401, false, "Invalid credentials") :=
  (admin_login_hardcoded { username := some "admin", password := some "wrong" }).2
    (Or.inr (by decide))

/-- Claim C10: the chat endpoint is a constant function of its request
body; any two bodies produce the identical fixed response text and the
identical fixed timestamp. -/
theorem ai_chat_constant (d1 d2 : ChatRequest) :
    ai_chat d1 = ai_chat d2 ∧
    ai_chat d1 = ("I am your Islamic Finance AI Assistant. I can help you with Shariah-compliant investments, Zakat calculations, and Islamic banking principles.",
      "2024-01-01T12:00:00Z") :=
  ⟨rfl, rfl⟩

end OmniAI
